import Mathlib

/-!
Verification of the sysui frontend authentication layer.

The definitions below are a shallow embedding of the TypeScript sources:
  - src/frontend/src/context/AuthContext.tsx
  - src/frontend/src/services/authService.ts
  - src/frontend/src/pages/SessionsPage.tsx
  - src/frontend/src/pages/auth/LoginPage.tsx
  - src/frontend/src/pages/auth/VerifyTwoFactorPage.tsx
  - src/frontend/src/pages/auth/RegisterPage.tsx (SetupTwoFactorPage part)
  - the RoleProtectedRoute component

Browser storage is modelled as explicit state records; network calls are
modelled as `Except`-valued oracles supplied as arguments, so that each
handler becomes a pure function of its inputs and the server's answer.
-/

/-- The two localStorage entries the auth code reads and writes
(`accessToken`, `refreshToken`); `none` models an absent key. -/
structure LocalStorage where
  accessToken : Option String
  refreshToken : Option String
deriving Repr, DecidableEq

/-- The one sessionStorage entry used by the auth code (`twoFactorEmail`). -/
structure SessionStorage where
  twoFactorEmail : Option String
deriving Repr, DecidableEq

/-- An access/refresh token pair as returned by the backend
(`access_token`, `refresh_token` fields of the JSON response). -/
structure TokenPair where
  access_token : String
  refresh_token : String
deriving Repr, DecidableEq

/-- The body of a successful response of POST /auth/login, as read by
`AuthContext.login`: a `requiresTwoFactor` flag and the token pair
(the latter meaningful only when the flag is false). -/
structure LoginResponse where
  requiresTwoFactor : Bool
  access_token : String
  refresh_token : String
deriving Repr, DecidableEq

namespace AuthContext

/-- AuthContext.tsx lines 126-160, function `login`.
`resp` is the outcome of `authService.login(email, password)`;
`userFetch` is the outcome of the follow-up `authService.getCurrentUser()`
(carrying a rendering of the user data on success, the thrown error's
message on failure). The returned `Except String Bool` is the promise's
outcome: `.ok b` models resolving with `\x7b requiresTwoFactor: b \x7d`,
`.error e` models the function throwing. The two storages are threaded
through explicitly. -/
def login (email : String) (resp : Except String LoginResponse)
    (userFetch : Except String String) (ls : LocalStorage) (ss : SessionStorage) :
    Except String Bool × LocalStorage × SessionStorage :=
  match resp with
  | .error e => (.error e, ls, ss)
  | .ok r =>
    if r.requiresTwoFactor then
      (.ok true, ls, { twoFactorEmail := some email })
    else
      let ls' : LocalStorage :=
        { accessToken := some r.access_token, refreshToken := some r.refresh_token }
      match userFetch with
      | .ok _ => (.ok false, ls', ss)
      | .error e => (.error e, ls', ss)

/-- AuthContext.tsx lines 203-224, function `verifyTwoFactorLogin`.
`apiResult` is the outcome of `authService.verifyTwoFactorLogin(email,
token)`; `userFetch` is the outcome of the follow-up
`authService.getCurrentUser()`. The last component of the result records
whether the 2FA-login API call was made at all. -/
def verifyTwoFactorLogin (ss : SessionStorage)
    (apiResult : Except String TokenPair) (userFetch : Except String String)
    (ls : LocalStorage) :
    Except String Unit × LocalStorage × SessionStorage × Bool :=
  match ss.twoFactorEmail with
  | none => (.error "Email not found for 2FA verification", ls, ss, false)
  | some _ =>
    match apiResult with
    | .error e => (.error e, ls, ss, true)
    | .ok pair =>
      let ls' : LocalStorage :=
        { accessToken := some pair.access_token,
          refreshToken := some pair.refresh_token }
      match userFetch with
      | .ok _ => (.ok (), ls', { twoFactorEmail := none }, true)
      | .error e => (.error e, ls', ss, true)

/-- The decoded JWT payload as far as `checkAuthStatus` inspects it: only
the optional numeric `exp` claim. -/
structure JwtPayload where
  exp : Option Nat
deriving Repr, DecidableEq

/-- Which branch the startup auth check takes (AuthContext.tsx lines
33-72): bail out unauthenticated, attempt a token refresh, or call
`authService.getCurrentUser()` with the stored token. -/
inductive StartupAction where
  | notAuthenticated
  | attemptRefresh
  | fetchCurrentUser
deriving Repr, DecidableEq

/-- The branch selection of `checkAuthStatus` (AuthContext.tsx lines
33-72). `decodeResult` is the outcome of `jwtDecode(token)`;
`currentTime` is `Date.now() / 1000`. The source guard is
`decoded.exp && decoded.exp < currentTime`: by JavaScript truthiness a
missing `exp` and an `exp` equal to 0 both fail the first conjunct, so
both fall through to the getCurrentUser branch. -/
def checkAuthStatusAction (token : Option String)
    (decodeResult : Except String JwtPayload) (currentTime : Nat) :
    StartupAction :=
  match token with
  | none => .notAuthenticated
  | some _ =>
    match decodeResult with
    | .error _ => .attemptRefresh
    | .ok p =>
      match p.exp with
      | none => .fetchCurrentUser
      | some e =>
        if e ≠ 0 ∧ e < currentTime then .attemptRefresh else .fetchCurrentUser

/-- AuthContext.tsx lines 88-124, function `refreshToken`, restricted to
its effect on localStorage and its returned boolean. A missing stored
refresh token throws, landing in the catch that removes both entries; a
refresh-API failure or a failure of the follow-up `getCurrentUser()` also
lands in that catch; only the fully successful path stores the new pair
and returns true. -/
def refreshTokenOp (apiResult : Except String TokenPair)
    (userFetch : Except String String) (ls : LocalStorage) :
    Bool × LocalStorage :=
  match ls.refreshToken with
  | none => (false, { accessToken := none, refreshToken := none })
  | some _ =>
    match apiResult with
    | .error _ => (false, { accessToken := none, refreshToken := none })
    | .ok pair =>
      match userFetch with
      | .error _ => (false, { accessToken := none, refreshToken := none })
      | .ok _ =>
        (true, { accessToken := some pair.access_token,
                 refreshToken := some pair.refresh_token })

/-- The string console.log renders for the token fields of the "Login
response received" message (AuthContext.tsx line 131): a falsy (absent or
empty) token logs as undefined, a present one as the literal REDACTED
marker — never the token text. -/
def redactToken (t : String) : String :=
  if t = "" then "undefined" else "[REDACTED]"

/-- The sequence of console messages produced by one run of
`AuthContext.login` (AuthContext.tsx lines 126-160), as a function of the
email, the password, the server response and the current-user fetch
outcome. The password parameter is present because the source hands it to
authService.login, but no log statement of the function includes it. -/
def loginLogs (email password : String) (resp : Except String LoginResponse)
    (userFetch : Except String String) : List String :=
  ["Login attempt for email: " ++ email,
   "Calling authService.login"] ++
  match resp with
  | .error e => ["Login failed: " ++ e]
  | .ok r =>
    ("Login response received: requiresTwoFactor=" ++ toString r.requiresTwoFactor
        ++ " access_token=" ++ redactToken r.access_token
        ++ " refresh_token=" ++ redactToken r.refresh_token) ::
      if r.requiresTwoFactor then
        ["2FA required, storing email in sessionStorage"]
      else
        "Storing tokens in localStorage" ::
        "Fetching user data after login" ::
        match userFetch with
        | .ok u =>
          ["User data received after login: " ++ u,
           "User state updated, authentication complete"]
        | .error e =>
          ["Failed to fetch user data after login: " ++ e,
           "Login failed: " ++ e]

end AuthContext

/-- An in-flight axios request as far as the response interceptor reads
and writes it: the custom retry marker set on the request config
(`originalRequest._retry` in authService.ts). -/
structure ApiRequest where
  retryFlag : Bool
deriving Repr, DecidableEq

/-- What the authService response-error interceptor does with a failed
request (authService.ts lines 41-109): propagate the rejection, redirect
the browser to /login, or re-issue the original request. -/
inductive InterceptorAction where
  | rejectError
  | redirectLogin
  | retryOriginal
deriving Repr, DecidableEq

namespace AuthServiceInterceptor

/-- One failure of an attempt of a request: the HTTP status of the failed
response (`none` when the error carries no response) and the outcome the
refresh endpoint would give were a refresh attempted at that point. -/
structure FailureEvent where
  status : Option Nat
  refreshOutcome : Except String TokenPair
deriving Repr

/-- The response-error interceptor of authService.ts (lines 41-109).
Returns the action, the request config as possibly mutated — the source
sets `originalRequest._retry = true` before attempting the refresh — and
the updated localStorage. Only a 401 on a not-yet-retried request enters
the refresh path; inside it, a missing stored refresh token redirects to
/login leaving storage untouched, a successful refresh stores the new
pair and retries, and a failed refresh clears both entries and
redirects. -/
def onError (ev : FailureEvent) (req : ApiRequest) (ls : LocalStorage) :
    InterceptorAction × ApiRequest × LocalStorage :=
  if ev.status = some 401 ∧ req.retryFlag = false then
    match ls.refreshToken with
    | none => (.redirectLogin, { retryFlag := true }, ls)
    | some _ =>
      match ev.refreshOutcome with
      | .ok pair =>
        (.retryOriginal, { retryFlag := true },
         { accessToken := some pair.access_token,
           refreshToken := some pair.refresh_token })
      | .error _ =>
        (.redirectLogin, { retryFlag := true },
         { accessToken := none, refreshToken := none })
  else
    (.rejectError, req, ls)

/-- Number of refresh-and-retry cycles one request goes through: each
element of the event list is the failure of one attempt of the request;
a retry consumes the next failure event with the mutated request config
and the updated storage. -/
def countRetries : List FailureEvent → ApiRequest → LocalStorage → Nat
  | [], _, _ => 0
  | ev :: rest, req, ls =>
    match onError ev req ls with
    | (.retryOriginal, req', ls') => 1 + countRetries rest req' ls'
    | _ => 0

end AuthServiceInterceptor

namespace LoginPage

/-- The console messages of one run of LoginPage.handleSubmit
(LoginPage.tsx lines 37-61): the page's own messages, then the auth
context's login messages, then the messages logging the result or the
caught error. -/
def handleSubmitLogs (email password returnUrl : String)
    (resp : Except String LoginResponse) (userFetch : Except String String)
    (ls : LocalStorage) (ss : SessionStorage) : List String :=
  ["LoginPage - Login attempt started for: " ++ email,
   "LoginPage - Return URL is: " ++ returnUrl,
   "LoginPage - Calling login function"] ++
  AuthContext.loginLogs email password resp userFetch ++
  match (AuthContext.login email resp userFetch ls ss).1 with
  | .ok true =>
    ["LoginPage - Login result: requiresTwoFactor=true",
     "LoginPage - 2FA required, navigating to verification page"]
  | .ok false =>
    ["LoginPage - Login result: requiresTwoFactor=false",
     "LoginPage - Login successful, navigating to: " ++ returnUrl]
  | .error e => ["LoginPage - Login error: " ++ e]

end LoginPage

/-- The regular expression of both 2FA code schemas, matching a string of
exactly six decimal digits. -/
def isSixDigitCode (s : String) : Bool :=
  s.length = 6 && s.toList.all Char.isDigit

namespace TwoFactorVerifySchema

/-- VerifyTwoFactorPage.tsx lines 12-16: the token field is required and
must match the six-decimal-digit regular expression. -/
def validateToken (s : String) : Bool :=
  (s != "") && isSixDigitCode s

end TwoFactorVerifySchema

namespace TwoFactorSetupSchema

/-- SetupTwoFactorPage's schema (RegisterPage.tsx source, lines 197-202):
the token field is required and must match the six-decimal-digit regular
expression. -/
def validateToken (s : String) : Bool :=
  (s != "") && isSixDigitCode s

end TwoFactorSetupSchema

namespace VerifyTwoFactorPage

/-- The code the 2FA login-verification form hands to
`verifyTwoFactorLogin`: Formik invokes handleSubmit only when the
validation schema accepts the values, so a failing token is never
submitted. -/
def submittedCode (token : String) : Option String :=
  if TwoFactorVerifySchema.validateToken token then some token else none

end VerifyTwoFactorPage

namespace SetupTwoFactorPage

/-- The code the 2FA setup-confirmation form hands to `verifyTwoFactor`:
Formik invokes handleSubmit only when the validation schema accepts the
values, so a failing token is never submitted. -/
def submittedCode (token : String) : Option String :=
  if TwoFactorSetupSchema.validateToken token then some token else none

end SetupTwoFactorPage

/-- The localStorage pairing invariant of claim C9: the accessToken entry
is present exactly when the refreshToken entry is. -/
def tokensPaired (ls : LocalStorage) : Prop :=
  ls.accessToken.isSome = ls.refreshToken.isSome

instance (ls : LocalStorage) : Decidable (tokensPaired ls) := by
  unfold tokensPaired
  infer_instance

/-- The authentication operations that touch the two token entries of
localStorage, each carrying the server-outcome oracles its source
function consumes. -/
inductive AuthOp where
  | loginOp (email : String) (resp : Except String LoginResponse)
      (userFetch : Except String String)
  | twoFactorLoginOp (apiResult : Except String TokenPair)
      (userFetch : Except String String)
  | refreshOp (apiResult : Except String TokenPair)
      (userFetch : Except String String)
  | logoutOp
  | startupCheckFailureOp
  | interceptorOp (ev : AuthServiceInterceptor.FailureEvent) (req : ApiRequest)

/-- The effect of each authentication operation on the two localStorage
token entries, taken from the respective source functions: login
(AuthContext.tsx 126-160), 2FA login (203-224), refresh (88-124), logout's
finally block (170-184), the catch of the startup auth check (73-78), and
the response interceptor (authService.ts 41-109). -/
def applyAuthOp (ss : SessionStorage) : AuthOp → LocalStorage → LocalStorage
  | .loginOp email resp uf, ls => (AuthContext.login email resp uf ls ss).2.1
  | .twoFactorLoginOp api uf, ls =>
      (AuthContext.verifyTwoFactorLogin ss api uf ls).2.1
  | .refreshOp api uf, ls => (AuthContext.refreshTokenOp api uf ls).2
  | .logoutOp, _ => { accessToken := none, refreshToken := none }
  | .startupCheckFailureOp, _ => { accessToken := none, refreshToken := none }
  | .interceptorOp ev req, ls =>
      (AuthServiceInterceptor.onError ev req ls).2.2

namespace AuthProvider

/-- The property names of the object literal `value` that AuthProvider
passes to `AuthContext.Provider` (AuthContext.tsx lines 267-282), in
source order. -/
def valueKeys : List String :=
  ["user", "isAuthenticated", "isLoading", "login", "register", "logout",
   "setupTwoFactor", "verifyTwoFactor", "verifyTwoFactorLogin",
   "forgotPassword", "resetPassword", "verifyEmail", "updateProfile",
   "updatePassword"]

end AuthProvider

namespace SessionsPage

/-- The member names SessionsPage destructures from `useAuth()`
(SessionsPage.tsx line 7). -/
def requiredAuthMembers : List String :=
  ["user", "getSessions", "revokeSession", "revokeAllOtherSessions"]

end SessionsPage

/-- The frontend role union type (types/user.ts line 1). -/
inductive Role where
  | admin
  | editor
  | viewer
deriving Repr, DecidableEq

/-- The `roleHierarchy` record of the RoleProtectedRoute component
(admin 3, editor 2, viewer 1). -/
def roleHierarchy : Role → Nat
  | .admin => 3
  | .editor => 2
  | .viewer => 1

/-- What RoleProtectedRoute renders (ignoring the isLoading spinner):
a redirect to /login, a redirect to /dashboard, or the protected children. -/
inductive RouteDecision where
  | redirectLogin
  | redirectDashboard
  | renderChildren
deriving Repr, DecidableEq

namespace RoleProtectedRoute

/-- Line 34 of the component: `user?.role ? roleHierarchy[user.role] : 0`.
`none` models a user value with no usable role. -/
def userRoleLevel : Option Role → Nat
  | some r => roleHierarchy r
  | none => 0

/-- The RoleProtectedRoute component body (lines 18-43) after the
isLoading branch: redirect unauthenticated users to /login, compare the
user's role level against the required role's level, redirect to
/dashboard on insufficient level, otherwise render the children. -/
def routeDecision (isAuthenticated : Bool) (userRole : Option Role)
    (requiredRole : Role) : RouteDecision :=
  if !isAuthenticated then
    .redirectLogin
  else if userRoleLevel userRole < roleHierarchy requiredRole then
    .redirectDashboard
  else
    .renderChildren

end RoleProtectedRoute

/-- A user value as far as SetupTwoFactorPage's effect inspects it:
only the `isTwoFactorEnabled` flag. -/
structure UserFlags where
  isTwoFactorEnabled : Bool
deriving Repr, DecidableEq

/-- The action taken by SetupTwoFactorPage's useEffect body
(RegisterPage.tsx source, SetupTwoFactorPage lines 213-228):
navigate to /login, navigate to /profile, or call
`generateTwoFactorSetup()` which invokes `setupTwoFactor()`. -/
inductive SetupEffectAction where
  | navigateLogin
  | navigateProfile
  | initiateEnrollment
deriving Repr, DecidableEq

namespace SetupTwoFactorPage

/-- The useEffect body of SetupTwoFactorPage: no user means redirect to
/login; a user with 2FA already enabled is redirected to /profile; only
otherwise is enrollment started. -/
def effectAction : Option UserFlags → SetupEffectAction
  | none => .navigateLogin
  | some u =>
    if u.isTwoFactorEnabled then .navigateProfile else .initiateEnrollment

end SetupTwoFactorPage

/-- Claim C3: the sessions page destructures getSessions, revokeSession and
revokeAllOtherSessions from the auth context, but AuthProvider's `value`
object defines none of them, so each of the page's handlers invokes an
undefined member. The theorem evaluates the two key lists taken from the
source: every session operation SessionsPage requires beyond `user` is
missing from the provided context value. -/
theorem C3_contextValue_missing_sessionOps :
    "getSessions" ∈ SessionsPage.requiredAuthMembers ∧
    "revokeSession" ∈ SessionsPage.requiredAuthMembers ∧
    "revokeAllOtherSessions" ∈ SessionsPage.requiredAuthMembers ∧
    "getSessions" ∉ AuthProvider.valueKeys ∧
    "revokeSession" ∉ AuthProvider.valueKeys ∧
    "revokeAllOtherSessions" ∉ AuthProvider.valueKeys := by
  decide

/-- Claim C6: the two-factor setup page's effect never initiates enrollment
for an authenticated user whose isTwoFactorEnabled flag is true — it
navigates to /profile instead — and enrollment is initiated exactly for an
authenticated user with the flag false. -/
theorem C6_setup_page_skips_enabled_users (u : UserFlags) :
    (u.isTwoFactorEnabled = true →
      SetupTwoFactorPage.effectAction (some u) = .navigateProfile) ∧
    (∀ ou : Option UserFlags,
      SetupTwoFactorPage.effectAction ou = .initiateEnrollment ↔
        ou = some { isTwoFactorEnabled := false }) := by
  constructor
  · intro h
    simp [SetupTwoFactorPage.effectAction, h]
  · intro ou
    match ou with
    | none => simp [SetupTwoFactorPage.effectAction]
    | some v =>
      cases hv : v.isTwoFactorEnabled <;>
        simp [SetupTwoFactorPage.effectAction, hv] <;>
        cases v <;> simp_all

/-- Witness for C6 at a concrete user: a user with 2FA enabled is sent to
/profile, and enrollment happens exactly for the 2FA-disabled user. -/
theorem C6_setup_page_skips_enabled_users_witness :
    SetupTwoFactorPage.effectAction (some { isTwoFactorEnabled := true }) =
      .navigateProfile ∧
    (SetupTwoFactorPage.effectAction (some { isTwoFactorEnabled := false }) =
      .initiateEnrollment ↔
      (some { isTwoFactorEnabled := false } : Option UserFlags) =
        some { isTwoFactorEnabled := false }) :=
  ⟨(C6_setup_page_skips_enabled_users ⟨true⟩).1 rfl,
   (C6_setup_page_skips_enabled_users ⟨true⟩).2
     (some { isTwoFactorEnabled := false })⟩

/-- Claim C10: for authenticated users, RoleProtectedRoute renders the
protected children exactly when the user's role level reaches the required
role's level; access is monotone along the admin > editor > viewer
hierarchy; and an authenticated user with no role is always redirected to
/dashboard. -/
theorem C10_roleProtectedRoute_monotone
    (userRole : Option Role) (requiredRole : Role) :
    (RoleProtectedRoute.routeDecision true userRole requiredRole =
        .renderChildren ↔
      roleHierarchy requiredRole ≤ RoleProtectedRoute.userRoleLevel userRole) ∧
    (∀ r1 r2 : Role, roleHierarchy r2 ≤ roleHierarchy r1 →
      RoleProtectedRoute.routeDecision true (some r2) requiredRole =
        .renderChildren →
      RoleProtectedRoute.routeDecision true (some r1) requiredRole =
        .renderChildren) ∧
    RoleProtectedRoute.routeDecision true none requiredRole =
      .redirectDashboard := by
  refine ⟨?_, ?_, ?_⟩
  · simp only [RoleProtectedRoute.routeDecision, Bool.not_true,
      Bool.false_eq_true, if_false]
    constructor
    · intro h
      by_contra hlt
      simp [Nat.lt_of_not_le hlt] at h
    · intro h
      simp [Nat.not_lt_of_le h]
  · intro r1 r2 h12 h2
    cases r1 <;> cases r2 <;> cases requiredRole <;>
      simp_all [RoleProtectedRoute.routeDecision,
        RoleProtectedRoute.userRoleLevel, roleHierarchy]
  · cases requiredRole <;>
      simp [RoleProtectedRoute.routeDecision,
        RoleProtectedRoute.userRoleLevel, roleHierarchy]

/-- Witness for C10 at concrete roles: an editor may open a viewer-gated
page, admin access is implied by editor access to it, and the roleless
user is redirected. -/
theorem C10_roleProtectedRoute_monotone_witness :
    (RoleProtectedRoute.routeDecision true (some Role.editor) Role.viewer =
        .renderChildren ↔
      roleHierarchy Role.viewer ≤
        RoleProtectedRoute.userRoleLevel (some Role.editor)) ∧
    RoleProtectedRoute.routeDecision true (some Role.admin) Role.viewer =
      .renderChildren ∧
    RoleProtectedRoute.routeDecision true none Role.viewer =
      .redirectDashboard := by
  refine ⟨(C10_roleProtectedRoute_monotone (some Role.editor) Role.viewer).1,
    ?_, (C10_roleProtectedRoute_monotone (some Role.editor) Role.viewer).2.2⟩
  exact (C10_roleProtectedRoute_monotone (some Role.editor) Role.viewer).2.1
    Role.admin Role.editor (by decide) (by decide)

/-- Claim C1 counterexample: with a server response not requiring
two-factor but a failing follow-up getCurrentUser call, login throws
instead of returning the no-two-factor result, refuting the claim that
every such call returns requiresTwoFactor false. -/
theorem C1_counterexample :
    (AuthContext.login "user@example.com"
        (Except.ok { requiresTwoFactor := false, access_token := "AT",
                     refresh_token := "RT" })
        (Except.error "getCurrentUser failed")
        { accessToken := none, refreshToken := none }
        { twoFactorEmail := none }).1 ≠ Except.ok false := by
  simp [AuthContext.login]

/-- Claim C1, amended: when the response marks two-factor as required,
login resolves with requiresTwoFactor true and leaves localStorage
untouched; otherwise it stores the response's access_token and
refresh_token, and resolves with requiresTwoFactor false exactly when the
follow-up getCurrentUser call succeeds, rethrowing that call's error
(with the tokens already stored) when it fails. -/
theorem C1_login_tokens_and_result (email : String) (r : LoginResponse)
    (userFetch : Except String String) (ls : LocalStorage)
    (ss : SessionStorage) :
    (r.requiresTwoFactor = true →
      (AuthContext.login email (.ok r) userFetch ls ss).1 = .ok true ∧
      (AuthContext.login email (.ok r) userFetch ls ss).2.1 = ls) ∧
    (r.requiresTwoFactor = false →
      (AuthContext.login email (.ok r) userFetch ls ss).2.1 =
        { accessToken := some r.access_token,
          refreshToken := some r.refresh_token } ∧
      (∀ u, userFetch = .ok u →
        (AuthContext.login email (.ok r) userFetch ls ss).1 = .ok false) ∧
      (∀ e, userFetch = .error e →
        (AuthContext.login email (.ok r) userFetch ls ss).1 = .error e)) := by
  constructor
  · intro h
    simp [AuthContext.login, h]
  · intro h
    refine ⟨by simp [AuthContext.login, h]; cases userFetch <;> simp, ?_, ?_⟩
    · intro u hu
      simp [AuthContext.login, h, hu]
    · intro e he
      simp [AuthContext.login, h, he]

/-- Witness for C1 at concrete inputs: a two-factor-required response
leaves the empty storage untouched and returns true; a plain response
with a succeeding user fetch returns false. -/
theorem C1_login_tokens_and_result_witness :
    ((AuthContext.login "e"
        (Except.ok { requiresTwoFactor := true, access_token := "a",
                     refresh_token := "b" })
        (Except.ok "u") { accessToken := none, refreshToken := none }
        { twoFactorEmail := none }).1 = Except.ok true ∧
     (AuthContext.login "e"
        (Except.ok { requiresTwoFactor := true, access_token := "a",
                     refresh_token := "b" })
        (Except.ok "u") { accessToken := none, refreshToken := none }
        { twoFactorEmail := none }).2.1 =
        { accessToken := none, refreshToken := none }) ∧
    (AuthContext.login "e"
        (Except.ok { requiresTwoFactor := false, access_token := "a",
                     refresh_token := "b" })
        (Except.ok "u") { accessToken := none, refreshToken := none }
        { twoFactorEmail := none }).1 = Except.ok false :=
  ⟨(C1_login_tokens_and_result "e"
      { requiresTwoFactor := true, access_token := "a", refresh_token := "b" }
      (Except.ok "u") { accessToken := none, refreshToken := none }
      { twoFactorEmail := none }).1 rfl,
   ((C1_login_tokens_and_result "e"
      { requiresTwoFactor := false, access_token := "a", refresh_token := "b" }
      (Except.ok "u") { accessToken := none, refreshToken := none }
      { twoFactorEmail := none }).2 rfl).2.1 "u" rfl⟩

/-- Claim C5 counterexample: with a pending two-factor email, an accepted
code but a failing follow-up getCurrentUser call, the pending email is
not removed from sessionStorage, refuting the claim that a server-accepted
code always clears it. -/
theorem C5_counterexample :
    ((AuthContext.verifyTwoFactorLogin { twoFactorEmail := some "e" }
        (Except.ok { access_token := "a", refresh_token := "b" })
        (Except.error "getCurrentUser failed")
        { accessToken := none, refreshToken := none }).2.2.1).twoFactorEmail ≠
      none := by
  simp [AuthContext.verifyTwoFactorLogin]

/-- Claim C5, amended: with no pending two-factor email,
verifyTwoFactorLogin throws, makes no 2FA-login API call and leaves
localStorage untouched; with a pending email and a server-accepted code it
stores the returned token pair, and removes the pending email exactly when
the follow-up getCurrentUser call succeeds — when that call fails the
pending email remains and the error is rethrown. -/
theorem C5_verifyTwoFactorLogin_behavior (ss : SessionStorage)
    (apiResult : Except String TokenPair) (userFetch : Except String String)
    (ls : LocalStorage) :
    (ss.twoFactorEmail = none →
      (AuthContext.verifyTwoFactorLogin ss apiResult userFetch ls).1 =
        .error "Email not found for 2FA verification" ∧
      (AuthContext.verifyTwoFactorLogin ss apiResult userFetch ls).2.1 = ls ∧
      (AuthContext.verifyTwoFactorLogin ss apiResult userFetch ls).2.2.2 =
        false) ∧
    (∀ email pair, ss.twoFactorEmail = some email → apiResult = .ok pair →
      (AuthContext.verifyTwoFactorLogin ss apiResult userFetch ls).2.1 =
        { accessToken := some pair.access_token,
          refreshToken := some pair.refresh_token } ∧
      (∀ u, userFetch = .ok u →
        (AuthContext.verifyTwoFactorLogin ss apiResult userFetch ls).1 =
          .ok () ∧
        (AuthContext.verifyTwoFactorLogin ss apiResult userFetch
            ls).2.2.1.twoFactorEmail = none) ∧
      (∀ e, userFetch = .error e →
        (AuthContext.verifyTwoFactorLogin ss apiResult userFetch ls).1 =
          .error e ∧
        (AuthContext.verifyTwoFactorLogin ss apiResult userFetch ls).2.2.1 =
          ss)) := by
  constructor
  · intro h
    simp [AuthContext.verifyTwoFactorLogin, h]
  · intro email pair hss hapi
    refine ⟨?_, ?_, ?_⟩
    · cases userFetch <;> simp [AuthContext.verifyTwoFactorLogin, hss, hapi]
    · intro u hu
      simp [AuthContext.verifyTwoFactorLogin, hss, hapi, hu]
    · intro e he
      simp [AuthContext.verifyTwoFactorLogin, hss, hapi, he]

/-- Witness for C5 at concrete inputs: an absent pending email makes the
call fail without an API call, and a pending email with an accepted code
and a succeeding user fetch stores the pair and clears the email. -/
theorem C5_verifyTwoFactorLogin_behavior_witness :
    ((AuthContext.verifyTwoFactorLogin { twoFactorEmail := none }
        (Except.ok { access_token := "a", refresh_token := "b" })
        (Except.ok "u") { accessToken := none, refreshToken := none }).1 =
      Except.error "Email not found for 2FA verification" ∧
     (AuthContext.verifyTwoFactorLogin { twoFactorEmail := none }
        (Except.ok { access_token := "a", refresh_token := "b" })
        (Except.ok "u") { accessToken := none, refreshToken := none }).2.1 =
      { accessToken := none, refreshToken := none } ∧
     (AuthContext.verifyTwoFactorLogin { twoFactorEmail := none }
        (Except.ok { access_token := "a", refresh_token := "b" })
        (Except.ok "u")
        { accessToken := none, refreshToken := none }).2.2.2 = false) ∧
    (AuthContext.verifyTwoFactorLogin { twoFactorEmail := some "e" }
        (Except.ok { access_token := "a", refresh_token := "b" })
        (Except.ok "u") { accessToken := none, refreshToken := none }).2.1 =
      { accessToken := some "a", refreshToken := some "b" } ∧
    (AuthContext.verifyTwoFactorLogin { twoFactorEmail := some "e" }
        (Except.ok { access_token := "a", refresh_token := "b" })
        (Except.ok "u")
        { accessToken := none,
          refreshToken := none }).2.2.1.twoFactorEmail = none :=
  ⟨(C5_verifyTwoFactorLogin_behavior { twoFactorEmail := none }
      (Except.ok { access_token := "a", refresh_token := "b" })
      (Except.ok "u") { accessToken := none, refreshToken := none }).1 rfl,
   ((C5_verifyTwoFactorLogin_behavior { twoFactorEmail := some "e" }
      (Except.ok { access_token := "a", refresh_token := "b" })
      (Except.ok "u") { accessToken := none, refreshToken := none }).2
      "e" { access_token := "a", refresh_token := "b" } rfl rfl).1,
   (((C5_verifyTwoFactorLogin_behavior { twoFactorEmail := some "e" }
      (Except.ok { access_token := "a", refresh_token := "b" })
      (Except.ok "u") { accessToken := none, refreshToken := none }).2
      "e" { access_token := "a", refresh_token := "b" } rfl rfl).2.1
      "u" rfl).2⟩

/-- Claim C4 counterexample: a stored token decoding to an exp claim that
is present with value 0 — which is strictly less than the current time —
falls through to the getCurrentUser branch instead of the refresh branch,
because the JavaScript guard treats the 0 value as falsy. -/
theorem C4_counterexample :
    AuthContext.checkAuthStatusAction (some "tok")
        (Except.ok { exp := some 0 }) 100 = .fetchCurrentUser ∧
    AuthContext.checkAuthStatusAction (some "tok")
        (Except.ok { exp := some 0 }) 100 ≠ .attemptRefresh ∧
    (0 : Nat) < 100 := by
  refine ⟨?_, ?_, by decide⟩ <;> simp [AuthContext.checkAuthStatusAction]

/-- Claim C4, amended: for a stored token whose decoded exp claim is
present, nonzero and strictly less than the current time, the startup
check takes the refresh branch and never the getCurrentUser branch; a
token whose exp claim is absent, zero, or at least the current time is
used to fetch the current user. -/
theorem C4_expiry_check (tok : String) (p : AuthContext.JwtPayload)
    (t : Nat) :
    (∀ e, p.exp = some e → e ≠ 0 → e < t →
      AuthContext.checkAuthStatusAction (some tok) (.ok p) t =
        .attemptRefresh) ∧
    (p.exp = none →
      AuthContext.checkAuthStatusAction (some tok) (.ok p) t =
        .fetchCurrentUser) ∧
    (∀ e, p.exp = some e → t ≤ e →
      AuthContext.checkAuthStatusAction (some tok) (.ok p) t =
        .fetchCurrentUser) ∧
    (p.exp = some 0 →
      AuthContext.checkAuthStatusAction (some tok) (.ok p) t =
        .fetchCurrentUser) := by
  refine ⟨?_, ?_, ?_, ?_⟩
  · intro e he hne hlt
    simp [AuthContext.checkAuthStatusAction, he, hne, hlt]
  · intro h
    simp [AuthContext.checkAuthStatusAction, h]
  · intro e he hge
    simp [AuthContext.checkAuthStatusAction, he, Nat.not_lt_of_le hge]
  · intro h
    simp [AuthContext.checkAuthStatusAction, h]

/-- Witness for C4 at concrete inputs: exp 5 at time 10 refreshes, a
missing exp fetches the user, exp 20 at time 10 fetches the user. -/
theorem C4_expiry_check_witness :
    AuthContext.checkAuthStatusAction (some "tok")
        (Except.ok { exp := some 5 }) 10 = .attemptRefresh ∧
    AuthContext.checkAuthStatusAction (some "tok")
        (Except.ok { exp := none }) 10 = .fetchCurrentUser ∧
    AuthContext.checkAuthStatusAction (some "tok")
        (Except.ok { exp := some 20 }) 10 = .fetchCurrentUser :=
  ⟨(C4_expiry_check "tok" { exp := some 5 } 10).1 5 rfl (by decide)
      (by decide),
   (C4_expiry_check "tok" { exp := none } 10).2.1 rfl,
   (C4_expiry_check "tok" { exp := some 20 } 10).2.2.1 20 rfl (by decide)⟩

/-- Claim C7: the console-log sequence of a login submission — the login
page handler together with the auth context login path — is a function of
the email, return URL, server response and user-fetch outcome only, so two
attempts differing only in the password log identically; and the token
fields of the logged login response are always rendered as undefined or as
the REDACTED marker, never as the token itself. -/
theorem C7_password_never_logged (email p1 p2 returnUrl : String)
    (resp : Except String LoginResponse) (userFetch : Except String String)
    (ls : LocalStorage) (ss : SessionStorage) :
    LoginPage.handleSubmitLogs email p1 returnUrl resp userFetch ls ss =
      LoginPage.handleSubmitLogs email p2 returnUrl resp userFetch ls ss ∧
    (∀ t : String, AuthContext.redactToken t = "undefined" ∨
      AuthContext.redactToken t = "[REDACTED]") := by
  refine ⟨rfl, ?_⟩
  intro t
  unfold AuthContext.redactToken
  split
  · exact Or.inl rfl
  · exact Or.inr rfl

/-- Claim C8: a code submitted through either 2FA form has necessarily
passed the shared six-decimal-digit validation, and a code that is not six
decimal digits is never handed to the verification call by either form. -/
theorem C8_sixDigit_validation (t c : String) :
    (VerifyTwoFactorPage.submittedCode t = some c →
      isSixDigitCode c = true) ∧
    (SetupTwoFactorPage.submittedCode t = some c →
      isSixDigitCode c = true) ∧
    (isSixDigitCode t = false →
      VerifyTwoFactorPage.submittedCode t = none ∧
      SetupTwoFactorPage.submittedCode t = none) := by
  refine ⟨?_, ?_, ?_⟩
  · intro h
    unfold VerifyTwoFactorPage.submittedCode at h
    split at h
    · next hv =>
      cases h
      exact ((Bool.and_eq_true _ _).mp hv).2
    · exact absurd h (by simp)
  · intro h
    unfold SetupTwoFactorPage.submittedCode at h
    split at h
    · next hv =>
      cases h
      exact ((Bool.and_eq_true _ _).mp hv).2
    · exact absurd h (by simp)
  · intro h
    constructor <;>
      simp [VerifyTwoFactorPage.submittedCode,
        SetupTwoFactorPage.submittedCode,
        TwoFactorVerifySchema.validateToken,
        TwoFactorSetupSchema.validateToken, h]

/-- Witness for C8 at concrete codes: 123456 passes through both forms
and is six digits; 12345 is rejected by both forms. -/
theorem C8_sixDigit_validation_witness :
    isSixDigitCode "123456" = true ∧
    (VerifyTwoFactorPage.submittedCode "12345" = none ∧
      SetupTwoFactorPage.submittedCode "12345" = none) :=
  ⟨(C8_sixDigit_validation "123456" "123456").1 (by decide),
   (C8_sixDigit_validation "12345" "12345").2.2 (by decide)⟩

/-- The interceptor only enters the retry path on a 401 of a
not-yet-retried request, and the request it re-issues carries the retry
marker. -/
theorem onError_retry_spec (ev : AuthServiceInterceptor.FailureEvent)
    (req : ApiRequest) (ls : LocalStorage) :
    (AuthServiceInterceptor.onError ev req ls).1 = .retryOriginal →
      ev.status = some 401 ∧ req.retryFlag = false ∧
      (AuthServiceInterceptor.onError ev req ls).2.1 =
        { retryFlag := true } := by
  unfold AuthServiceInterceptor.onError
  split
  · next hcond =>
    split
    · intro h
      simp at h
    · split
      · intro _
        exact ⟨hcond.1, hcond.2, rfl⟩
      · intro h
        simp at h
  · intro h
    simp at h

/-- A request already carrying the retry marker is never retried. -/
theorem onError_marked_rejects (ev : AuthServiceInterceptor.FailureEvent)
    (ls : LocalStorage) :
    AuthServiceInterceptor.onError ev { retryFlag := true } ls =
      (.rejectError, { retryFlag := true }, ls) := by
  unfold AuthServiceInterceptor.onError
  split
  · next hcond => simp at hcond
  · rfl

/-- A request whose config already carries the retry marker accumulates
no further refresh-retry cycles. -/
theorem countRetries_marked (evs : List AuthServiceInterceptor.FailureEvent)
    (ls : LocalStorage) :
    AuthServiceInterceptor.countRetries evs { retryFlag := true } ls = 0 := by
  cases evs with
  | nil => rfl
  | cons ev rest =>
    simp only [AuthServiceInterceptor.countRetries, onError_marked_rejects]

/-- Claim C2: the interceptor refreshes and retries only on a 401 of a
request not yet marked as retried; a marked request or a non-401 failure
is always rejected; the retried request is marked, so a marked request
accumulates zero further retries and any request goes through at most one
refresh-retry cycle. -/
theorem C2_retry_at_most_once
    (evs : List AuthServiceInterceptor.FailureEvent)
    (ev : AuthServiceInterceptor.FailureEvent) (req : ApiRequest)
    (ls : LocalStorage) :
    ((AuthServiceInterceptor.onError ev req ls).1 = .retryOriginal →
      ev.status = some 401 ∧ req.retryFlag = false ∧
      (AuthServiceInterceptor.onError ev req ls).2.1.retryFlag = true) ∧
    (req.retryFlag = true →
      (AuthServiceInterceptor.onError ev req ls).1 = .rejectError) ∧
    (ev.status ≠ some 401 →
      (AuthServiceInterceptor.onError ev req ls).1 = .rejectError) ∧
    AuthServiceInterceptor.countRetries evs { retryFlag := true } ls = 0 ∧
    AuthServiceInterceptor.countRetries evs req ls ≤ 1 := by
  refine ⟨?_, ?_, ?_, countRetries_marked evs ls, ?_⟩
  · intro h
    obtain ⟨h1, h2, h3⟩ := onError_retry_spec ev req ls h
    exact ⟨h1, h2, by rw [h3]⟩
  · intro h
    have hreq : req = { retryFlag := true } := by
      cases req
      simp_all
    rw [hreq, onError_marked_rejects]
  · intro h
    unfold AuthServiceInterceptor.onError
    split
    · next hcond => exact absurd hcond.1 h
    · rfl
  · cases evs with
    | nil => exact Nat.zero_le 1
    | cons e rest =>
      rcases hoe : AuthServiceInterceptor.onError e req ls with ⟨act, req', ls'⟩
      cases act with
      | retryOriginal =>
        have hspec := onError_retry_spec e req ls (by rw [hoe])
        rw [hoe] at hspec
        have hreq' : req' = { retryFlag := true } := hspec.2.2
        simp only [AuthServiceInterceptor.countRetries, hoe, hreq',
          countRetries_marked]
        omega
      | rejectError =>
        simp only [AuthServiceInterceptor.countRetries, hoe]
        exact Nat.zero_le 1
      | redirectLogin =>
        simp only [AuthServiceInterceptor.countRetries, hoe]
        exact Nat.zero_le 1

/-- Witness for C2 at concrete inputs: a first 401 with a stored refresh
token and a succeeding refresh call is retried exactly once; the marked
request and a 500 failure are rejected. -/
theorem C2_retry_at_most_once_witness :
    ((AuthServiceInterceptor.onError
        { status := some 401,
          refreshOutcome := Except.ok { access_token := "a",
                                        refresh_token := "b" } }
        { retryFlag := false }
        { accessToken := some "x", refreshToken := some "y" }).1 =
          .retryOriginal →
      ({ status := some 401,
         refreshOutcome := Except.ok { access_token := "a",
                                       refresh_token := "b" } } :
          AuthServiceInterceptor.FailureEvent).status = some 401 ∧
      ({ retryFlag := false } : ApiRequest).retryFlag = false ∧
      (AuthServiceInterceptor.onError
        { status := some 401,
          refreshOutcome := Except.ok { access_token := "a",
                                        refresh_token := "b" } }
        { retryFlag := false }
        { accessToken := some "x",
          refreshToken := some "y" }).2.1.retryFlag = true) ∧
    (AuthServiceInterceptor.onError
        { status := some 401,
          refreshOutcome := Except.ok { access_token := "a",
                                        refresh_token := "b" } }
        { retryFlag := true }
        { accessToken := some "x", refreshToken := some "y" }).1 =
      .rejectError ∧
    (AuthServiceInterceptor.onError
        { status := some 500,
          refreshOutcome := Except.ok { access_token := "a",
                                        refresh_token := "b" } }
        { retryFlag := false }
        { accessToken := some "x", refreshToken := some "y" }).1 =
      .rejectError ∧
    AuthServiceInterceptor.countRetries
      [{ status := some 401,
         refreshOutcome := Except.ok { access_token := "a",
                                       refresh_token := "b" } }]
      { retryFlag := false }
      { accessToken := some "x", refreshToken := some "y" } ≤ 1 :=
  ⟨(C2_retry_at_most_once
      [{ status := some 401,
         refreshOutcome := Except.ok { access_token := "a",
                                       refresh_token := "b" } }]
      { status := some 401,
        refreshOutcome := Except.ok { access_token := "a",
                                      refresh_token := "b" } }
      { retryFlag := false }
      { accessToken := some "x", refreshToken := some "y" }).1,
   (C2_retry_at_most_once
      [{ status := some 401,
         refreshOutcome := Except.ok { access_token := "a",
                                       refresh_token := "b" } }]
      { status := some 401,
        refreshOutcome := Except.ok { access_token := "a",
                                      refresh_token := "b" } }
      { retryFlag := true }
      { accessToken := some "x", refreshToken := some "y" }).2.1 rfl,
   (C2_retry_at_most_once
      [{ status := some 401,
         refreshOutcome := Except.ok { access_token := "a",
                                       refresh_token := "b" } }]
      { status := some 500,
        refreshOutcome := Except.ok { access_token := "a",
                                      refresh_token := "b" } }
      { retryFlag := false }
      { accessToken := some "x", refreshToken := some "y" }).2.2.1
      (by decide),
   (C2_retry_at_most_once
      [{ status := some 401,
         refreshOutcome := Except.ok { access_token := "a",
                                       refresh_token := "b" } }]
      { status := some 401,
        refreshOutcome := Except.ok { access_token := "a",
                                      refresh_token := "b" } }
      { retryFlag := false }
      { accessToken := some "x", refreshToken := some "y" }).2.2.2.2⟩

/-- Claim C9: every modelled authentication operation preserves the
pairing invariant on localStorage — the accessToken entry is present
exactly when the refreshToken entry is — because each operation stores or
removes the two entries together (or leaves both untouched). -/
theorem C9_token_pairing_invariant (ss : SessionStorage) (op : AuthOp)
    (ls : LocalStorage) (h : tokensPaired ls) :
    tokensPaired (applyAuthOp ss op ls) := by
  cases op with
  | loginOp email resp uf =>
    cases resp with
    | error e => simpa [applyAuthOp, AuthContext.login] using h
    | ok r =>
      cases hr : r.requiresTwoFactor <;> cases uf <;>
        simp_all [applyAuthOp, AuthContext.login, tokensPaired]
  | twoFactorLoginOp api uf =>
    cases hss : ss.twoFactorEmail with
    | none => simpa [applyAuthOp, AuthContext.verifyTwoFactorLogin, hss] using h
    | some email =>
      cases api <;> cases uf <;>
        simp_all [applyAuthOp, AuthContext.verifyTwoFactorLogin, tokensPaired]
  | refreshOp api uf =>
    cases hrt : ls.refreshToken with
    | none => simp [applyAuthOp, AuthContext.refreshTokenOp, hrt, tokensPaired]
    | some rt =>
      cases api <;> cases uf <;>
        simp [applyAuthOp, AuthContext.refreshTokenOp, hrt, tokensPaired]
  | logoutOp => simp [applyAuthOp, tokensPaired]
  | startupCheckFailureOp => simp [applyAuthOp, tokensPaired]
  | interceptorOp ev req =>
    obtain ⟨st, ro⟩ := ev
    obtain ⟨la, lr⟩ := ls
    simp only [applyAuthOp]
    unfold AuthServiceInterceptor.onError
    split
    · cases lr with
      | none => simpa using h
      | some rt => cases ro <;> simp [tokensPaired]
    · exact h

/-- Witness for C9 at concrete inputs: a paired storage stays paired
through a logout and through a successful interceptor refresh. -/
theorem C9_token_pairing_invariant_witness :
    tokensPaired
      (applyAuthOp { twoFactorEmail := none } .logoutOp
        { accessToken := some "a", refreshToken := some "b" }) ∧
    tokensPaired
      (applyAuthOp { twoFactorEmail := none }
        (.interceptorOp
          { status := some 401,
            refreshOutcome := Except.ok { access_token := "c",
                                          refresh_token := "d" } }
          { retryFlag := false })
        { accessToken := some "a", refreshToken := some "b" }) :=
  ⟨C9_token_pairing_invariant { twoFactorEmail := none } .logoutOp
      { accessToken := some "a", refreshToken := some "b" } rfl,
   C9_token_pairing_invariant { twoFactorEmail := none }
      (.interceptorOp
        { status := some 401,
          refreshOutcome := Except.ok { access_token := "c",
                                        refresh_token := "d" } }
        { retryFlag := false })
      { accessToken := some "a", refreshToken := some "b" } rfl⟩
